import Mathlib

/-!
Shallow embedding of the tinyhumansai / alphahuman_memory Python SDK
(request normalization, timestamp validation, response parsing, memory
operations, LLM routing, base-URL resolution), with theorems checking the
natural-language specification against the embedded code.

Conventions of the embedding:
* Python runtime values that flow through the SDK (JSON-decoded bodies,
  dict items, timestamp fields) are modeled by `PyVal`.
* Python exceptions are modeled by `PyErr`; fallible code returns
  `Except PyErr _`.
* Numeric timestamps are modeled as integers: the SDK only ever compares
  them, so any linearly ordered numeric carrier is faithful.
* Network I/O is modeled by passing the server's `HttpResponse` (or a
  response function) as an argument; each operation also returns the
  number of HTTP requests it issued, so "fails before any network call"
  is the statement that this count is zero.
-/

/-- A Python runtime value, as needed by the SDK code paths
(`None`, booleans, numbers, strings, lists, dicts). -/
inductive PyVal where
  | pyNone : PyVal
  | pyBool : Bool → PyVal
  | pyInt : Int → PyVal
  | pyStr : String → PyVal
  | pyList : List PyVal → PyVal
  | pyDict : List (String × PyVal) → PyVal
deriving Repr

/-- A Python exception as raised by the SDK code paths.
`tinyHumanError` models the SDK's own error class
(`TinyHumanError` / `AlphahumanError`: message, status, body);
the others are builtin Python exceptions. -/
inductive PyErr where
  | valueError : String → PyErr
  | typeError : String → PyErr
  | keyError : String → PyErr
  | attributeError : String → PyErr
  | tinyHumanError : PyVal → Int → PyVal → PyErr
deriving Repr

/-- The spec's `InvalidArgument` error class is realized in this SDK as
Python's `ValueError` (every designed local-validation failure —
empty item list, missing delete target, malformed timestamp,
unsupported provider — raises `ValueError`). -/
def PyErr.isInvalidArgument : PyErr → Bool
  | .valueError _ => true
  | _ => false

/-- Python truthiness for the modeled values. -/
def PyVal.truthy : PyVal → Bool
  | .pyNone => false
  | .pyBool b => b
  | .pyInt n => n ≠ 0
  | .pyStr s => s ≠ ""
  | .pyList xs => ¬ xs.isEmpty
  | .pyDict kvs => ¬ kvs.isEmpty

/-- Python `a or b` on values (returns `a` when truthy, else `b`). -/
def pyOr (a b : PyVal) : PyVal := if a.truthy then a else b

/-- Python `isinstance(v, (int, float))`: numeric view of a value.
`bool` is a subclass of `int` in Python, so booleans count as numeric. -/
def PyVal.toNum : PyVal → Option Int
  | .pyInt n => some n
  | .pyBool b => some (if b then 1 else 0)
  | _ => none

/-- Python `type(v).__name__`, as used in error messages. -/
def PyVal.typeName : PyVal → String
  | .pyNone => "NoneType"
  | .pyBool _ => "bool"
  | .pyInt _ => "int"
  | .pyStr _ => "str"
  | .pyList _ => "list"
  | .pyDict _ => "dict"

/-- Python `d.get(k, default)` on a dict value; on a non-dict value the
attribute lookup of `get` raises `AttributeError`. -/
def pyGetDefault (v : PyVal) (k : String) (default : PyVal) : Except PyErr PyVal :=
  match v with
  | .pyDict kvs => .ok ((kvs.lookup k).getD default)
  | _ => .error (.attributeError "get")

/-- Python `d[k]` with a string key: `KeyError` on a dict missing the key,
`TypeError` on any non-dict value. -/
def pySubscript (v : PyVal) (k : String) : Except PyErr PyVal :=
  match v with
  | .pyDict kvs =>
      match kvs.lookup k with
      | some x => .ok x
      | none => .error (.keyError k)
  | _ => .error (.typeError ("value of type " ++ v.typeName ++ " is not subscriptable with a string key"))

/-- Python decimal rendering of an integer, used in f-string error messages. -/
def pyShowInt (n : Int) : String := toString n

/-! ## Timestamp validation (`tinyhumansai/client.py`, `_validate_timestamp`) -/

/-- One hundred years in seconds, as computed by the source
(`100 * 365 * 24 * 60 * 60`). -/
def hundredYears : Int := 100 * 365 * 24 * 60 * 60

/-- Embedding of `_validate_timestamp(value, name)` from `tinyhumansai/client.py`.
`now` is the value of `time.time()` at call time. -/
def _validate_timestamp (now : Int) (value : PyVal) (name : String) : Except PyErr Unit :=
  match value with
  | .pyNone => .ok ()
  | v =>
    match v.toNum with
    | none =>
        .error (.valueError (name ++ " must be a number (Unix timestamp in seconds), got " ++ v.typeName))
    | some x =>
        if x < 0 then
          .error (.valueError (name ++ " must be non-negative (Unix timestamp in seconds), got " ++ pyShowInt x))
        else if x > now + hundredYears then
          .error (.valueError (name ++ " is too far in the future (max ~100 years), got " ++ pyShowInt x))
        else
          .ok ()

/-- Embedding of `_validate_timestamps(created_at, updated_at)` from
`tinyhumansai/client.py`: created first, then updated, then the
cross-field comparison.  The cross-field branch fires when both values
are present (`is not None`); at that point both are numeric, since a
present non-numeric value was already rejected above, so matching on
the numeric views is faithful. -/
def _validate_timestamps (now : Int) (created_at updated_at : PyVal) : Except PyErr Unit := do
  _validate_timestamp now created_at "created_at"
  _validate_timestamp now updated_at "updated_at"
  match created_at.toNum, updated_at.toNum with
  | some c, some u =>
      if u < c then
        .error (.valueError ("updated_at (" ++ pyShowInt u ++ ") must be >= created_at (" ++ pyShowInt c ++ ")"))
      else
        .ok ()
  | _, _ => .ok ()

/-! ## Python string primitives used by the SDK
(`str.strip`, `str.lower`, `str.rstrip("/")`), modeled over character
lists so they evaluate in the kernel. -/

/-- The characters stripped by Python's default `str.strip()`. -/
def isPySpace (c : Char) : Bool :=
  c = ' ' || c = '\t' || c = '\n' || c = '\r' || c = '\x0b' || c = '\x0c'

/-- Python `s.strip()`. -/
def pyStrip (s : String) : String :=
  ⟨((s.data.dropWhile isPySpace).reverse.dropWhile isPySpace).reverse⟩

/-- ASCII lower-casing of one character (`str.lower` on the SDK's ASCII inputs). -/
def pyLowerChar (c : Char) : Char :=
  if 'A' ≤ c && c ≤ 'Z' then Char.ofNat (c.toNat + 32) else c

/-- Python `s.lower()` (ASCII). -/
def pyLower (s : String) : String := ⟨s.data.map pyLowerChar⟩

/-- Python `s.rstrip("/")`. -/
def pyRstripSlash (s : String) : String :=
  ⟨(s.data.reverse.dropWhile (fun c => c = '/')).reverse⟩

/-! ## HTTP responses and the response parser
(`TinyHumanMemoryClient._parse_response` in `tinyhumansai/client.py`;
`AsyncAlphahumanMemoryClient._parse_response` in
`alphahuman_memory/async_client.py` is textually identical up to the
error class name, so one definition embeds both). -/

/-- An HTTP response as the SDK observes it: status code, the result of
`response.json()` (`none` models a decode failure), and the raw body
text `response.text`. -/
structure HttpResponse where
  status_code : Int
  jsonBody : Option PyVal
  text : String

/-- httpx's `response.is_success`: 2xx status. -/
def HttpResponse.is_success (r : HttpResponse) : Bool :=
  200 ≤ r.status_code && r.status_code < 300

/-- Embedding of `_parse_response(response)`: decode, distinguish success/error
envelopes, unwrap `data`. -/
def _parse_response (r : HttpResponse) : Except PyErr PyVal :=
  match r.jsonBody with
  | none =>
      .error (.tinyHumanError
        (.pyStr ("HTTP " ++ pyShowInt r.status_code ++ ": non-JSON response"))
        r.status_code (.pyStr r.text))
  | some payload =>
      if r.is_success then
        pySubscript payload "data"
      else
        match pyGetDefault payload "error" (.pyStr ("HTTP " ++ pyShowInt r.status_code)) with
        | .ok message => .error (.tinyHumanError message r.status_code payload)
        | .error e => .error e

/-- Discriminator: is this error the SDK's own error class
(the one the spec splits into `TransportError` / `ApiError`)? -/
def PyErr.isTinyHumanError : PyErr → Bool
  | .tinyHumanError _ _ _ => true
  | _ => false

/-- Discriminator for `Except` results carrying an error satisfying `p`. -/
def Except.errSat (p : PyErr → Bool) : Except PyErr α → Bool
  | .error e => p e
  | .ok _ => false

/-- Is the result a success? -/
def Except.isOkB : Except PyErr α → Bool
  | .ok _ => true
  | .error _ => false

/-! ## The typed `MemoryItem` record (`tinyhumansai/types.py`)
and Python attribute access on it. -/

/-- The `MemoryItem` dataclass: it defines exactly the four attributes
`key`, `content`, `namespace`, `metadata` — there is no `created_at`
or `updated_at` field. -/
structure MemoryItem where
  key : String
  content : String
  namespace_ : String := "default"
  metadata : List (String × PyVal) := []

/-- Python `getattr` on a `MemoryItem` instance: the four dataclass
fields resolve; any other name raises `AttributeError`. -/
def MemoryItem.getattr (it : MemoryItem) (name : String) : Except PyErr PyVal :=
  if name = "key" then .ok (.pyStr it.key)
  else if name = "content" then .ok (.pyStr it.content)
  else if name = "namespace" then .ok (.pyStr it.namespace_)
  else if name = "metadata" then .ok (.pyDict it.metadata)
  else .error (.attributeError name)

/-! ## Ingest (`TinyHumanMemoryClient.ingest_memories` / `ingest_memory`) -/

/-- A member of the `items` argument of `ingest_memories`, after the
`isinstance` dispatch of the source: a typed `MemoryItem`, a dict, or
a value of any other runtime type (carrying its type name). -/
inductive IngestInput where
  | typed : MemoryItem → IngestInput
  | dict : List (String × PyVal) → IngestInput
  | other : String → IngestInput

/-- Evaluates `item.get("createdAt") or item.get("created_at")` for a dict item. -/
def dict_created_at (kvs : List (String × PyVal)) : PyVal :=
  pyOr ((kvs.lookup "createdAt").getD .pyNone) ((kvs.lookup "created_at").getD .pyNone)

/-- Evaluates `item.get("updatedAt") or item.get("updated_at")` for a dict item. -/
def dict_updated_at (kvs : List (String × PyVal)) : PyVal :=
  pyOr ((kvs.lookup "updatedAt").getD .pyNone) ((kvs.lookup "updated_at").getD .pyNone)

/-- Append `("createdAt", v)` (resp. `"updatedAt"`) only when the
extracted value is not `None`, as the source's
`if created_at is not None` does. -/
def appendIfNotNone (base : List (String × PyVal)) (k : String) (v : PyVal) :
    List (String × PyVal) :=
  match v with
  | .pyNone => base
  | v => base ++ [(k, v)]

/-- The body of the normalization loop of `ingest_memories`
(`tinyhumansai/client.py` lines 167-199), for one item. -/
def normalize_item (now : Int) (item : IngestInput) : Except PyErr (List (String × PyVal)) :=
  match item with
  | .typed it => do
      let c ← it.getattr "created_at"
      let u ← it.getattr "updated_at"
      _validate_timestamps now c u
      let base := [("key", PyVal.pyStr it.key), ("content", PyVal.pyStr it.content),
                   ("namespace", PyVal.pyStr it.namespace_), ("metadata", PyVal.pyDict it.metadata)]
      .ok (appendIfNotNone (appendIfNotNone base "createdAt" c) "updatedAt" u)
  | .dict kvs => do
      let created_at := dict_created_at kvs
      let updated_at := dict_updated_at kvs
      _validate_timestamps now created_at updated_at
      if (kvs.lookup "namespace").isNone then
        .error (.valueError "items: each dict must include \x27namespace\x27")
      else do
        let k ← pySubscript (.pyDict kvs) "key"
        let c ← pySubscript (.pyDict kvs) "content"
        let ns ← pySubscript (.pyDict kvs) "namespace"
        let md ← pyGetDefault (.pyDict kvs) "metadata" (.pyDict [])
        let base := [("key", k), ("content", c), ("namespace", ns), ("metadata", md)]
        .ok (appendIfNotNone (appendIfNotNone base "createdAt" created_at) "updatedAt" updated_at)
  | .other _ => .error (.typeError "items must be MemoryItem or dict")

/-- The whole normalization loop: first raised error wins. -/
def normalize_items (now : Int) (items : List IngestInput) : Except PyErr (List PyVal) :=
  match items with
  | [] => .ok []
  | it :: rest => do
      let d ← normalize_item now it
      let ds ← normalize_items now rest
      .ok (.pyDict d :: ds)

/-- The `IngestMemoryResponse` dataclass; the source stores `data["ingested"]`
etc. without conversion, so the fields hold runtime values. -/
structure IngestMemoryResponse where
  ingested : PyVal
  updated : PyVal
  errors : PyVal

/-- Unwrap the three count fields from the parsed `data` envelope, in the
source's evaluation order. -/
def read_ingest_counts (data : PyVal) : Except PyErr IngestMemoryResponse := do
  let i ← pySubscript data "ingested"
  let u ← pySubscript data "updated"
  let e ← pySubscript data "errors"
  .ok ⟨i, u, e⟩

/-- Embedding of `TinyHumanMemoryClient.ingest_memories(items=...)`.  `resp` is the
reply the server would give to the single `POST /memory`; the second
component counts the HTTP requests actually issued. -/
def TinyHumanMemoryClient.ingest_memories (now : Int) (items : List IngestInput)
    (resp : HttpResponse) : Except PyErr IngestMemoryResponse × Nat :=
  if items.isEmpty then
    (.error (.valueError "items must be a non-empty list"), 0)
  else
    match normalize_items now items with
    | .error e => (.error e, 0)
    | .ok _body =>
        match _parse_response resp with
        | .error e => (.error e, 1)
        | .ok data =>
            match read_ingest_counts data with
            | .error e => (.error e, 1)
            | .ok r => (.ok r, 1)

/-- Embedding of `TinyHumanMemoryClient.ingest_memory(item=...)`: wraps the single
item in a list and delegates. -/
def TinyHumanMemoryClient.ingest_memory (now : Int) (item : IngestInput)
    (resp : HttpResponse) : Except PyErr IngestMemoryResponse × Nat :=
  TinyHumanMemoryClient.ingest_memories now [item] resp

/-- CPython keyword binding for a call made purely with keyword arguments
against a keyword-only parameter list: an unexpected keyword raises
`TypeError`, then a missing required keyword-only argument raises
`TypeError`. -/
def pyBindKwonly (fname : String) (params : List String) (kwargs : List String) :
    Except PyErr Unit :=
  match kwargs.find? (fun k => !(params.contains k)) with
  | some k => .error (.typeError (fname ++ "() got an unexpected keyword argument \x27" ++ k ++ "\x27"))
  | none =>
      match params.find? (fun p => !(kwargs.contains p)) with
      | some p => .error (.typeError (fname ++ "() missing 1 required keyword-only argument: \x27" ++ p ++ "\x27"))
      | none => .ok ()

/-- The call `AsyncTinyHumanMemoryClient.ingest_memory(items=...)` delegates to the
sync client's `ingest_memory`, whose only parameter is the keyword-only
`item` (`tinyhumansai/client.py` line 116).  This is the argument-binding
step of that delegation, which CPython performs before the callee's body
(and hence before any validation or network request) runs. -/
def AsyncTinyHumanMemoryClient.ingest_memory_binding : Except PyErr Unit :=
  pyBindKwonly "ingest_memory" ["item"] ["items"]

/-- Request type of `AsyncAlphahumanMemoryClient.ingest_memory(request)`
(`alphahuman_memory/async_client.py`): `request.items` is a list of
typed alphahuman `MemoryItem`s (same four fields as the tinyhumansai
one, so the same structure embeds it). -/
structure AlphaIngestMemoryRequest where
  items : List MemoryItem

/-- Embedding of `AsyncAlphahumanMemoryClient.ingest_memory`: empty-list check, then one
`POST /v1/memory` built from the four item fields. -/
def AsyncAlphahumanMemoryClient.ingest_memory (request : AlphaIngestMemoryRequest)
    (resp : HttpResponse) : Except PyErr IngestMemoryResponse × Nat :=
  if request.items.isEmpty then
    (.error (.valueError "items must be a non-empty list"), 0)
  else
    let _body := request.items.map (fun it =>
      PyVal.pyDict [("key", .pyStr it.key), ("content", .pyStr it.content),
                    ("namespace", .pyStr it.namespace_), ("metadata", .pyDict it.metadata)])
    match _parse_response resp with
    | .error e => (.error e, 1)
    | .ok data =>
        match read_ingest_counts data with
        | .error e => (.error e, 1)
        | .ok r => (.ok r, 1)

/-! ## Recall (`TinyHumanMemoryClient.recall_memory`) -/

mutual
/-- Python `str(v)` as used in f-strings, for the modeled values
(container rendering approximates `repr`; the SDK only ever formats
strings here). -/
def PyVal.format : PyVal → String
  | .pyNone => "None"
  | .pyBool b => if b then "True" else "False"
  | .pyInt n => toString n
  | .pyStr s => s
  | .pyList xs => "[" ++ PyVal.formatList xs ++ "]"
  | .pyDict kvs => "\x7b" ++ PyVal.formatPairs kvs ++ "\x7d"
def PyVal.formatList : List PyVal → String
  | [] => ""
  | [x] => PyVal.format x
  | x :: xs => PyVal.format x ++ ", " ++ PyVal.formatList xs
def PyVal.formatPairs : List (String × PyVal) → String
  | [] => ""
  | [(k, v)] => "\x27" ++ k ++ "\x27: " ++ PyVal.format v
  | (k, v) :: xs => "\x27" ++ k ++ "\x27: " ++ PyVal.format v ++ ", " ++ PyVal.formatPairs xs
end

/-- The `ReadMemoryItem` dataclass; the source stores the subscripted values
without conversion, so fields hold runtime values. -/
structure ReadMemoryItem where
  key : PyVal
  content : PyVal
  namespace_ : PyVal
  metadata : PyVal
  created_at : PyVal
  updated_at : PyVal

/-- Construction of one `ReadMemoryItem` from a decoded server item
(`tinyhumansai/client.py` lines 252-259). -/
def parse_read_item (v : PyVal) : Except PyErr ReadMemoryItem := do
  let k ← pySubscript v "key"
  let c ← pySubscript v "content"
  let ns ← pySubscript v "namespace"
  let md ← pyGetDefault v "metadata" (.pyDict [])
  let ca ← pyGetDefault v "createdAt" (.pyStr "")
  let ua ← pyGetDefault v "updatedAt" (.pyStr "")
  .ok ⟨k, c, ns, md, ca, ua⟩

/-- The list comprehension over `data["items"]`. -/
def parse_read_items : List PyVal → Except PyErr (List ReadMemoryItem)
  | [] => .ok []
  | v :: vs => do
      let it ← parse_read_item v
      let its ← parse_read_items vs
      .ok (it :: its)

/-- One per-item block of the context string:
`f"[{it.namespace}:{it.key}]\n{it.content}"`. -/
def context_block (it : ReadMemoryItem) : String :=
  "[" ++ it.namespace_.format ++ ":" ++ it.key.format ++ "]\n" ++ it.content.format

/-- The `GetContextResponse` dataclass. -/
structure GetContextResponse where
  context : String
  items : List ReadMemoryItem
  count : Nat

/-- Embedding of `TinyHumanMemoryClient.recall_memory`.  `respond` maps the query
parameters of the single `GET /memory` to the server's reply; the
second component counts the HTTP requests issued. -/
def TinyHumanMemoryClient.recall_memory (namespace_ prompt : String) (num_chunks : Int)
    (key : Option String) (keys : Option (List String))
    (respond : List (String × String) → HttpResponse) :
    Except PyErr GetContextResponse × Nat :=
  if num_chunks < 1 then
    (.error (.valueError "num_chunks must be >= 1"), 0)
  else
    let params :=
      [("namespace", namespace_), ("prompt", prompt), ("limit", pyShowInt num_chunks)]
      ++ (match key with
          | some k => if k = "" then [] else [("key", k)]
          | none => [])
      ++ (match keys with
          | some ks => if ks.isEmpty then [] else ks.map (fun k => ("keys[]", k))
          | none => [])
    match _parse_response (respond params) with
    | .error e => (.error e, 1)
    | .ok data =>
        match pySubscript data "items" with
        | .error e => (.error e, 1)
        | .ok itemsVal =>
            match itemsVal with
            | .pyList vs =>
                match parse_read_items vs with
                | .error e => (.error e, 1)
                | .ok items0 =>
                    let items := items0.take num_chunks.toNat
                    let context := String.intercalate "\n\n" (items.map context_block)
                    (.ok ⟨context, items, items.length⟩, 1)
            | v => (.error (.typeError ("value of type " ++ v.typeName ++ " is not iterable")), 1)

/-- JSON encoding of a well-formed server item, for stating round trips. -/
def encodeReadItem (it : ReadMemoryItem) : PyVal :=
  .pyDict [("key", it.key), ("content", it.content), ("namespace", it.namespace_),
           ("metadata", it.metadata), ("createdAt", it.created_at), ("updatedAt", it.updated_at)]

/-- A success envelope `{data: d}` with status 200. -/
def okEnvelope (d : PyVal) : HttpResponse :=
  ⟨200, some (.pyDict [("data", d)]), ""⟩

/-- The success envelope a read returns: `{data: {items: [...], count: n}}`. -/
def readEnvelope (its : List ReadMemoryItem) : HttpResponse :=
  okEnvelope (.pyDict [("items", .pyList (its.map encodeReadItem)),
                       ("count", .pyInt (its.length : Int))])

/-! ## LLM routing (`tinyhumansai/llm.py`, `recall_with_llm`) -/

/-- The tuple `SUPPORTED_LLM_PROVIDERS` from `tinyhumansai/llm.py`. -/
def SUPPORTED_LLM_PROVIDERS : List String := ["openai", "anthropic", "google"]

/-- Python `repr` of the provider tuple, as interpolated into the error
message. -/
def pyReprTuple (xs : List String) : String :=
  "(" ++ String.intercalate ", " (xs.map (fun s => "\x27" ++ s ++ "\x27")) ++ ")"

/-- Which request path `recall_with_llm` takes: the custom
OpenAI-compatible endpoint, or one of the three built-in providers. -/
inductive LLMRequestPath where
  | custom : String → LLMRequestPath
  | builtin : String → LLMRequestPath

/-- The built-in branch of `recall_with_llm`: strip/lower the tag, then
check membership in the supported set. -/
def llm_builtin_branch (provider : String) : Except PyErr LLMRequestPath :=
  let p := pyLower (pyStrip provider)
  if SUPPORTED_LLM_PROVIDERS.contains p then .ok (.builtin p)
  else .error (.valueError
    ("provider must be one of " ++ pyReprTuple SUPPORTED_LLM_PROVIDERS ++ ", got \x27" ++ p
      ++ "\x27. For custom providers, pass the \x27url\x27 parameter."))

/-- The argument-validation and dispatch prefix of `recall_with_llm`
(`tinyhumansai/llm.py` lines 50-82); the provider HTTP call itself is
out of scope, so the result is the chosen request path. -/
def recall_with_llm_route (provider api_key : String) (url : Option String) :
    Except PyErr LLMRequestPath :=
  if api_key = "" || pyStrip api_key = "" then
    .error (.valueError "api_key is required for recall_with_llm")
  else
    match url with
    | some u => if u = "" then llm_builtin_branch provider else .ok (.custom u)
    | none => llm_builtin_branch provider

/-! ## Base-URL resolution -/

/-- The constant `DEFAULT_BASE_URL` from `tinyhumansai/types.py`. -/
def DEFAULT_BASE_URL : String := "https://api.tinyhumans.ai"

/-- The constant `BASE_URL_ENV` from `tinyhumansai/types.py`. -/
def BASE_URL_ENV : String := "TINYHUMANS_BASE_URL"

/-- Python `a or b` where `a` is an optional string (`None` and `""` are
falsy). -/
def pyOrStr (a : Option String) (b : String) : String :=
  match a with
  | some s => if s = "" then b else s
  | none => b

/-- Python `a or b` where `a` is a plain string. -/
def pyOrStrS (a : String) (b : String) : String :=
  if a = "" then b else a

/-- Embedding of the `TinyHumanMemoryClient.__init__` base-URL resolution
(`tinyhumansai/client.py` line 93 plus the `rstrip("/")` of line 94):
`base_url or os.environ.get(BASE_URL_ENV) or DEFAULT_BASE_URL`.
`env` models `os.environ.get`.  (The `AsyncTinyHumanMemoryClient`
constructor passes its `base_url` argument through to this client
unchanged.) -/
def TinyHumanMemoryClient.resolve_base_url (base_url : Option String)
    (env : String → Option String) : String :=
  pyRstripSlash (pyOrStr base_url (pyOrStr (env BASE_URL_ENV) DEFAULT_BASE_URL))

/-- The constant `DEFAULT_BASE_URL` from `alphahuman_memory/types.py`. -/
def Alphahuman.DEFAULT_BASE_URL : String := "https://api.alphahuman.xyz"

/-- The `AlphahumanConfig` dataclass: note that `base_url` is a plain string
whose dataclass default is the hardcoded `DEFAULT_BASE_URL`, not `None`. -/
structure AlphahumanConfig where
  token : String
  base_url : String := Alphahuman.DEFAULT_BASE_URL

/-- Embedding of the `AsyncAlphahumanMemoryClient.__init__` base-URL resolution
(`alphahuman_memory/async_client.py` lines 43-44):
`config.base_url or os.environ.get(BASE_URL_ENV) or DEFAULT_BASE_URL`,
then `rstrip("/")`.  `env_value` stands for the value
`os.environ.get(BASE_URL_ENV)` would produce — see
`alphahuman_import_failure` below for the fact that the name
`BASE_URL_ENV` does not actually exist in that package. -/
def AsyncAlphahumanMemoryClient.resolve_base_url (config : AlphahumanConfig)
    (env_value : Option String) : String :=
  pyRstripSlash (pyOrStrS config.base_url (pyOrStr env_value Alphahuman.DEFAULT_BASE_URL))

/-- The module-level names defined by `alphahuman_memory/types.py` (its
full list of top-level assignments and class definitions). -/
def alphahuman_types_defs : List String :=
  ["DEFAULT_BASE_URL", "AlphahumanConfig", "MemoryItem", "IngestMemoryRequest",
   "IngestMemoryResponse", "ReadMemoryRequest", "ReadMemoryItem", "ReadMemoryResponse",
   "DeleteMemoryRequest", "DeleteMemoryResponse", "AlphahumanError"]

/-- The names `alphahuman_memory/async_client.py` imports from
`alphahuman_memory.types` (lines 10-22). -/
def alphahuman_async_client_import_names : List String :=
  ["AlphahumanConfig", "AlphahumanError", "BASE_URL_ENV", "DEFAULT_BASE_URL",
   "DeleteMemoryRequest", "DeleteMemoryResponse", "IngestMemoryRequest",
   "IngestMemoryResponse", "ReadMemoryItem", "ReadMemoryRequest", "ReadMemoryResponse"]

/-- The first imported name missing from the target module — CPython
raises `ImportError` on it when `alphahuman_memory.async_client` is
loaded; `none` would mean the import succeeds. -/
def alphahuman_import_failure : Option String :=
  alphahuman_async_client_import_names.find? (fun n => !(alphahuman_types_defs.contains n))

/-! ## The sync client's attribute surface and the async facade's
`get_context` (`tinyhumansai/async_client.py` lines 73-88). -/

/-- The attributes defined in the class body of `TinyHumanMemoryClient`
(`tinyhumansai/client.py`): every `def` of the class, dunders included. -/
def TinyHumanMemoryClient.attr_names : List String :=
  ["__init__", "close", "__enter__", "__exit__", "ingest_memory", "ingest_memories",
   "recall_memory", "delete_memory", "recall_with_llm", "_get", "_send", "_parse_response"]

/-- Python attribute lookup on the sync client instance (instance
attributes set in `__init__` aside, which are not methods): resolves a
defined name, raises `AttributeError` otherwise. -/
def TinyHumanMemoryClient.lookup_attr (name : String) : Except PyErr String :=
  if TinyHumanMemoryClient.attr_names.contains name then .ok name
  else .error (.attributeError name)

/-- Embedding of `AsyncTinyHumanMemoryClient.get_context(...)`: its body's first step is
evaluating `self._sync_client.get_context`, before any argument is
used and before any work is offloaded to a thread; the arguments play
no part in that lookup. -/
def AsyncTinyHumanMemoryClient.get_context (_key : Option String)
    (_keys : Option (List String)) (_namespace : Option String)
    (_max_items : Option Int) : Except PyErr String :=
  TinyHumanMemoryClient.lookup_attr "get_context"

/-! ## Helper lemmas -/

/-- Validity of one optional timestamp, as §4.2 of the spec states it:
absent, or numeric, non-negative and at most 100 years in the future. -/
def timestamp_ok (now : Int) (v : PyVal) : Prop :=
  v = .pyNone ∨ ∃ x, v.toNum = some x ∧ 0 ≤ x ∧ x ≤ now + hundredYears

theorem vt_cases (now : Int) (v : PyVal) (name : String) :
    _validate_timestamp now v name = .ok () ∨
      ∃ m, _validate_timestamp now v name = .error (.valueError m) := by
  cases v <;> simp only [_validate_timestamp, PyVal.toNum]
  · left; trivial
  all_goals
    repeat' split
  all_goals
    first
      | (left; rfl)
      | (left; trivial)
      | (right; exact ⟨_, rfl⟩)

theorem vt_ok_iff (now : Int) (v : PyVal) (name : String) :
    _validate_timestamp now v name = .ok () ↔ timestamp_ok now v := by
  cases v <;> simp only [_validate_timestamp, timestamp_ok, PyVal.toNum] <;> try simp
  case pyBool b =>
    cases b <;> simp
  case pyInt n =>
    constructor
    · intro h
      split at h
      · exact absurd h (by simp)
      · split at h
        · exact absurd h (by simp)
        · omega
    · intro h
      have h1 : ¬ n < 0 := by omega
      have h2 : ¬ n > now + hundredYears := by omega
      simp [h1, h2]

theorem vt_error_invalidArgument (now : Int) (v : PyVal) (name : String) (e : PyErr)
    (h : _validate_timestamp now v name = .error e) : e.isInvalidArgument = true := by
  rcases vt_cases now v name with hok | ⟨m, hm⟩
  · rw [hok] at h; exact absurd h (by simp)
  · rw [hm] at h
    injection h with h'
    rw [← h']
    rfl

theorem vts_eq_bind (now : Int) (c u : PyVal) :
    _validate_timestamps now c u =
      (_validate_timestamp now c "created_at").bind (fun _ =>
        (_validate_timestamp now u "updated_at").bind (fun _ =>
          match c.toNum, u.toNum with
          | some cn, some un =>
              if un < cn then
                .error (.valueError ("updated_at (" ++ pyShowInt un ++ ") must be >= created_at (" ++ pyShowInt cn ++ ")"))
              else .ok ()
          | _, _ => .ok ())) := rfl

theorem vts_of_created_error (now : Int) (c u : PyVal) (e : PyErr)
    (h : _validate_timestamp now c "created_at" = .error e) :
    _validate_timestamps now c u = .error e := by
  rw [vts_eq_bind, h]
  rfl

theorem vts_of_updated_error (now : Int) (c u : PyVal) (e : PyErr)
    (hc : _validate_timestamp now c "created_at" = .ok ())
    (h : _validate_timestamp now u "updated_at" = .error e) :
    _validate_timestamps now c u = .error e := by
  rw [vts_eq_bind, hc, h]
  rfl

theorem vts_of_cross (now : Int) (c u : PyVal) (cn un : Int)
    (hc : _validate_timestamp now c "created_at" = .ok ())
    (hu : _validate_timestamp now u "updated_at" = .ok ())
    (hcn : c.toNum = some cn) (hun : u.toNum = some un) :
    _validate_timestamps now c u =
      (if un < cn then
        .error (.valueError ("updated_at (" ++ pyShowInt un ++ ") must be >= created_at (" ++ pyShowInt cn ++ ")"))
      else .ok ()) := by
  rw [vts_eq_bind, hc, hu]
  simp [Except.bind, hcn, hun]

theorem vts_ok_of_not_both (now : Int) (c u : PyVal)
    (hc : _validate_timestamp now c "created_at" = .ok ())
    (hu : _validate_timestamp now u "updated_at" = .ok ())
    (h : c.toNum = none ∨ u.toNum = none) :
    _validate_timestamps now c u = .ok () := by
  rw [vts_eq_bind, hc, hu]
  rcases h with h | h <;> simp [Except.bind, h]

/-- Claim C3: timestamp validation raises `InvalidArgument` (ValueError)
when a present value is non-numeric, negative, or beyond now + 100
years; when both are present and `updated_at < created_at` it raises
`InvalidArgument` citing both values; checks run in the order
created_at, updated_at, cross-field, stopping at the first violation;
otherwise validation succeeds (equal timestamps succeed, and
`updated_at` alone succeeds). -/
theorem C3_timestamp_validation (now : Int) (created_at updated_at : PyVal) :
    (∀ e, _validate_timestamp now created_at "created_at" = .error e →
        _validate_timestamps now created_at updated_at = .error e) ∧
    (_validate_timestamp now created_at "created_at" = .ok () →
      ∀ e, _validate_timestamp now updated_at "updated_at" = .error e →
        _validate_timestamps now created_at updated_at = .error e) ∧
    (∀ cn un, timestamp_ok now created_at → timestamp_ok now updated_at →
      created_at.toNum = some cn → updated_at.toNum = some un → un < cn →
        _validate_timestamps now created_at updated_at =
          .error (.valueError ("updated_at (" ++ pyShowInt un ++ ") must be >= created_at ("
            ++ pyShowInt cn ++ ")"))) ∧
    (_validate_timestamps now created_at updated_at = .ok () ↔
      (timestamp_ok now created_at ∧ timestamp_ok now updated_at ∧
        ∀ cn un, created_at.toNum = some cn → updated_at.toNum = some un → cn ≤ un)) ∧
    (∀ e, _validate_timestamps now created_at updated_at = .error e →
        e.isInvalidArgument = true) ∧
    (_validate_timestamp now created_at "created_at" = .ok () →
      ¬ (∃ x, created_at.toNum = some x) →
        _validate_timestamps now created_at updated_at =
          _validate_timestamp now updated_at "updated_at") := by
  refine ⟨?_, ?_, ?_, ?_, ?_, ?_⟩
  · intro e h
    exact vts_of_created_error now created_at updated_at e h
  · intro hc e h
    exact vts_of_updated_error now created_at updated_at e hc h
  · intro cn un hcok huok hcn hun hlt
    have hc := (vt_ok_iff now created_at "created_at").mpr hcok
    have hu := (vt_ok_iff now updated_at "updated_at").mpr huok
    rw [vts_of_cross now created_at updated_at cn un hc hu hcn hun]
    simp [hlt]
  · constructor
    · intro h
      rcases vt_cases now created_at "created_at" with hc | ⟨m, hm⟩
      · rcases vt_cases now updated_at "updated_at" with hu | ⟨m, hm⟩
        · refine ⟨(vt_ok_iff now created_at "created_at").mp hc,
                  (vt_ok_iff now updated_at "updated_at").mp hu, ?_⟩
          intro cn un hcn hun
          by_contra hlt
          rw [vts_of_cross now created_at updated_at cn un hc hu hcn hun] at h
          simp only [if_pos (by omega : un < cn)] at h
          exact absurd h (by simp)
        · rw [vts_of_updated_error now created_at updated_at _ hc hm] at h
          exact absurd h (by simp)
      · rw [vts_of_created_error now created_at updated_at _ hm] at h
        exact absurd h (by simp)
    · rintro ⟨hcok, huok, hcross⟩
      have hc := (vt_ok_iff now created_at "created_at").mpr hcok
      have hu := (vt_ok_iff now updated_at "updated_at").mpr huok
      rcases hcn : created_at.toNum with _ | cn
      · exact vts_ok_of_not_both now created_at updated_at hc hu (Or.inl hcn)
      · rcases hun : updated_at.toNum with _ | un
        · exact vts_ok_of_not_both now created_at updated_at hc hu (Or.inr hun)
        · rw [vts_of_cross now created_at updated_at cn un hc hu hcn hun]
          have : ¬ un < cn := by
            have := hcross cn un hcn hun
            omega
          simp [this]
  · intro e h
    rcases vt_cases now created_at "created_at" with hc | ⟨m, hm⟩
    · rcases vt_cases now updated_at "updated_at" with hu | ⟨m, hm⟩
      · rcases hcn : created_at.toNum with _ | cn
        · rw [vts_ok_of_not_both now created_at updated_at hc hu (Or.inl hcn)] at h
          exact absurd h (by simp)
        · rcases hun : updated_at.toNum with _ | un
          · rw [vts_ok_of_not_both now created_at updated_at hc hu (Or.inr hun)] at h
            exact absurd h (by simp)
          · rw [vts_of_cross now created_at updated_at cn un hc hu hcn hun] at h
            split at h
            · injection h with h'
              rw [← h']; rfl
            · exact absurd h (by simp)
      · rw [vts_of_updated_error now created_at updated_at _ hc hm] at h
        injection h with h'
        rw [← h']; rfl
    · rw [vts_of_created_error now created_at updated_at _ hm] at h
      injection h with h'
      rw [← h']; rfl
  · intro hc hnum
    rcases vt_cases now updated_at "updated_at" with hu | ⟨m, hm⟩
    · rw [hu]
      refine vts_ok_of_not_both now created_at updated_at hc hu (Or.inl ?_)
      rcases hcn : created_at.toNum with _ | cn
      · rfl
      · exact absurd ⟨cn, hcn⟩ hnum
    · rw [hm]
      exact vts_of_updated_error now created_at updated_at _ hc hm

/-- Witness for C3 at concrete inputs: `updated_at = 6 < created_at = 7`
fails citing both values; equal timestamps succeed; `updated_at` alone
succeeds. -/
theorem C3_timestamp_validation_witness :
    _validate_timestamps 1000 (.pyInt 7) (.pyInt 6) =
      .error (.valueError "updated_at (6) must be >= created_at (7)") ∧
    _validate_timestamps 1000 (.pyInt 7) (.pyInt 7) = .ok () ∧
    _validate_timestamps 1000 .pyNone (.pyInt 7) = .ok () := by
  refine ⟨?_, ?_, ?_⟩
  · exact (C3_timestamp_validation 1000 (.pyInt 7) (.pyInt 6)).2.2.1 7 6
      (Or.inr ⟨7, rfl, by norm_num, by norm_num [hundredYears]⟩)
      (Or.inr ⟨6, rfl, by norm_num, by norm_num [hundredYears]⟩)
      rfl rfl (by norm_num)
  · exact ((C3_timestamp_validation 1000 (.pyInt 7) (.pyInt 7)).2.2.2.1).mpr
      ⟨Or.inr ⟨7, rfl, by norm_num, by norm_num [hundredYears]⟩,
       Or.inr ⟨7, rfl, by norm_num, by norm_num [hundredYears]⟩,
       by intro cn un hcn hun; injection hcn with h1; injection hun with h2; omega⟩
  · exact ((C3_timestamp_validation 1000 .pyNone (.pyInt 7)).2.2.2.1).mpr
      ⟨Or.inl rfl,
       Or.inr ⟨7, rfl, by norm_num, by norm_num [hundredYears]⟩,
       by intro cn un hcn hun; exact absurd hcn (by simp [PyVal.toNum])⟩

/-- Claim C2 (amended: the ApiError/data clauses require the decoded body
to be a JSON object): decode failure raises the SDK error carrying the
raw status and raw text; decode success with a failure status and an
object body raises the SDK error carrying the status and the body's
`error` field (or `"HTTP {status}"` when absent) and the decoded body;
a success status returns the envelope's `data` field. -/
theorem C2_parse_response (r : HttpResponse) :
    (r.jsonBody = none →
      _parse_response r = .error (.tinyHumanError
        (.pyStr ("HTTP " ++ pyShowInt r.status_code ++ ": non-JSON response"))
        r.status_code (.pyStr r.text))) ∧
    (∀ kvs, r.jsonBody = some (.pyDict kvs) → r.is_success = false →
      _parse_response r = .error (.tinyHumanError
        ((kvs.lookup "error").getD (.pyStr ("HTTP " ++ pyShowInt r.status_code)))
        r.status_code (.pyDict kvs))) ∧
    (∀ kvs d, r.jsonBody = some (.pyDict kvs) → r.is_success = true →
      kvs.lookup "data" = some d → _parse_response r = .ok d) := by
  refine ⟨?_, ?_, ?_⟩
  · intro h
    simp [_parse_response, h]
  · intro kvs h hs
    simp [_parse_response, h, hs, pyGetDefault]
  · intro kvs d h hs hd
    simp [_parse_response, h, hs, pySubscript, hd]

/-- Counterexample to C2 as stated: a failure-status response whose body
decodes to a JSON array (`[]` with HTTP 400) raises `AttributeError`
(from `payload.get` on a list), not the SDK's ApiError. -/
theorem C2_counterexample :
    _parse_response ⟨400, some (.pyList []), "[]"⟩ = .error (.attributeError "get") ∧
    (_parse_response ⟨400, some (.pyList []), "[]"⟩).errSat PyErr.isTinyHumanError = false :=
  ⟨rfl, rfl⟩

/-- Witness for C2 at concrete responses: success envelope unwraps `data`;
HTTP 400 with `{error: "x"}` carries message "x", status 400 and the
body; a non-JSON body carries the raw status and text. -/
theorem C2_parse_response_witness :
    _parse_response ⟨200, some (.pyDict [("data", .pyInt 7)]), ""⟩ = .ok (.pyInt 7) ∧
    _parse_response ⟨400, some (.pyDict [("error", .pyStr "x")]), ""⟩ =
      .error (.tinyHumanError (.pyStr "x") 400 (.pyDict [("error", .pyStr "x")])) ∧
    _parse_response ⟨500, none, "boom"⟩ =
      .error (.tinyHumanError (.pyStr "HTTP 500: non-JSON response") 500 (.pyStr "boom")) := by
  refine ⟨?_, ?_, ?_⟩
  · exact (C2_parse_response ⟨200, some (.pyDict [("data", .pyInt 7)]), ""⟩).2.2 _ _ rfl rfl rfl
  · exact (C2_parse_response ⟨400, some (.pyDict [("error", .pyStr "x")]), ""⟩).2.1 _ rfl rfl
  · exact (C2_parse_response ⟨500, none, "boom"⟩).1 rfl

/-- Claim C1 (code evaluated at the failing input): the sync TinyHuman
client and the Alphahuman client reject an empty items list with
`ValueError` and zero HTTP requests; but
`AsyncTinyHumanMemoryClient.ingest_memory` passes the keyword `items`
to the sync `ingest_memory`, whose only parameter is the keyword-only
`item`, so the delegation's argument binding raises `TypeError` — not
the claimed `InvalidArgument`/`ValueError` — before the sync body (and
hence before any validation or network request) can run. -/
theorem C1_ingest_empty (now : Int) (resp : HttpResponse) (req : AlphaIngestMemoryRequest) :
    TinyHumanMemoryClient.ingest_memories now [] resp =
      (.error (.valueError "items must be a non-empty list"), 0) ∧
    (req.items = [] →
      AsyncAlphahumanMemoryClient.ingest_memory req resp =
        (.error (.valueError "items must be a non-empty list"), 0)) ∧
    AsyncTinyHumanMemoryClient.ingest_memory_binding =
      .error (.typeError "ingest_memory() got an unexpected keyword argument \x27items\x27") ∧
    (AsyncTinyHumanMemoryClient.ingest_memory_binding).errSat PyErr.isInvalidArgument = false := by
  refine ⟨rfl, ?_, rfl, rfl⟩
  intro h
  simp [AsyncAlphahumanMemoryClient.ingest_memory, h]

/-- Witness for C1 at a concrete input: the Alphahuman client with an
empty request list. -/
theorem C1_ingest_empty_witness :
    AsyncAlphahumanMemoryClient.ingest_memory ⟨[]⟩
        ⟨200, some (.pyDict [("data", .pyDict [])]), ""⟩ =
      (.error (.valueError "items must be a non-empty list"), 0) :=
  (C1_ingest_empty 0 ⟨200, some (.pyDict [("data", .pyDict [])]), ""⟩ ⟨[]⟩).2.1 rfl

theorem except_bind_ok {ε α β : Type} (a : α) (f : α → Except ε β) :
    (Except.ok a : Except ε α) >>= f = f a := rfl

theorem except_bind_err {ε α β : Type} (e : ε) (f : α → Except ε β) :
    (Except.error e : Except ε α) >>= f = .error e := rfl

/-- Claim C4 (amended: a map-shaped item lacking `key` or `content` raises
`KeyError` on that key, and an item of neither recognized shape raises
`TypeError`, not the spec's `InvalidArgument`/`ValueError`; in every
case the failure occurs before any network call). -/
theorem C4_normalizer_failure_modes (now : Int) (kvs : List (String × PyVal))
    (t : String) (k0 : PyVal) (resp : HttpResponse)
    (hts : _validate_timestamps now (dict_created_at kvs) (dict_updated_at kvs) = .ok ())
    (hns : (kvs.lookup "namespace").isSome = true) :
    (kvs.lookup "key" = none →
      TinyHumanMemoryClient.ingest_memories now [.dict kvs] resp =
        (.error (.keyError "key"), 0)) ∧
    (kvs.lookup "key" = some k0 → kvs.lookup "content" = none →
      TinyHumanMemoryClient.ingest_memories now [.dict kvs] resp =
        (.error (.keyError "content"), 0)) ∧
    (TinyHumanMemoryClient.ingest_memories now [.other t] resp =
      (.error (.typeError "items must be MemoryItem or dict"), 0)) := by
  have hnn : (kvs.lookup "namespace").isNone = false := by
    rcases h : kvs.lookup "namespace" with _ | ns0
    · rw [h] at hns; exact absurd hns (by simp)
    · rfl
  refine ⟨?_, ?_, ?_⟩
  · intro hk
    simp [TinyHumanMemoryClient.ingest_memories, normalize_items, normalize_item, hts,
          except_bind_ok, except_bind_err, hnn, pySubscript, hk]
  · intro hk hc
    simp [TinyHumanMemoryClient.ingest_memories, normalize_items, normalize_item, hts,
          except_bind_ok, except_bind_err, hnn, pySubscript, hk, hc]
  · rfl

/-- Counterexample to C4 as stated: a dict item `{"namespace": "n"}`
(lacking `key`) fails with `KeyError`, which is not the
`InvalidArgument`/`ValueError` class the claim requires. -/
theorem C4_counterexample :
    TinyHumanMemoryClient.ingest_memories 0 [.dict [("namespace", .pyStr "n")]]
        ⟨200, some (.pyDict [("data", .pyDict [])]), ""⟩ =
      (.error (.keyError "key"), 0) ∧
    (PyErr.keyError "key").isInvalidArgument = false :=
  ⟨rfl, rfl⟩

/-- Witness for C4 at concrete inputs: missing `content` gives
`KeyError("content")`; a non-record non-dict item gives `TypeError`. -/
theorem C4_normalizer_failure_modes_witness :
    TinyHumanMemoryClient.ingest_memories 0
        [.dict [("namespace", .pyStr "n"), ("key", .pyStr "k")]]
        ⟨200, some (.pyDict [("data", .pyDict [])]), ""⟩ =
      (.error (.keyError "content"), 0) ∧
    TinyHumanMemoryClient.ingest_memories 0 [.other "int"]
        ⟨200, some (.pyDict [("data", .pyDict [])]), ""⟩ =
      (.error (.typeError "items must be MemoryItem or dict"), 0) := by
  constructor
  · exact (C4_normalizer_failure_modes 0 [("namespace", .pyStr "n"), ("key", .pyStr "k")]
      "int" (.pyStr "k") ⟨200, some (.pyDict [("data", .pyDict [])]), ""⟩ rfl rfl).2.1 rfl rfl
  · exact (C4_normalizer_failure_modes 0 [("namespace", .pyStr "n"), ("key", .pyStr "k")]
      "int" (.pyStr "k") ⟨200, some (.pyDict [("data", .pyDict [])]), ""⟩ rfl rfl).2.2

theorem normalize_item_typed (now : Int) (it : MemoryItem) :
    normalize_item now (.typed it) = .error (.attributeError "created_at") := rfl

theorem normalize_items_typed_mem (now : Int) (items : List IngestInput) (it : MemoryItem)
    (h : IngestInput.typed it ∈ items) : ∃ e, normalize_items now items = .error e := by
  induction items with
  | nil => cases h
  | cons x rest ih =>
      rcases List.mem_cons.mp h with hx | hr
      · exact ⟨.attributeError "created_at",
          by simp [normalize_items, ← hx, normalize_item_typed, except_bind_err]⟩
      · cases hnx : normalize_item now x with
        | error e => exact ⟨e, by simp [normalize_items, hnx, except_bind_err]⟩
        | ok d =>
            rcases ih hr with ⟨e, he⟩
            exact ⟨e, by simp [normalize_items, hnx, he, except_bind_ok, except_bind_err]⟩

/-- Claim C9: ingesting a typed `MemoryItem` record always raises
`AttributeError` (`created_at` is read by timestamp validation but is
not an attribute of the dataclass) with no request issued; any items
list containing a typed record therefore never succeeds and never
reaches the network. -/
theorem C9_typed_item_never_ingests (now : Int) (it : MemoryItem)
    (items : List IngestInput) (resp : HttpResponse) :
    TinyHumanMemoryClient.ingest_memory now (.typed it) resp =
      (.error (.attributeError "created_at"), 0) ∧
    (IngestInput.typed it ∈ items →
      (TinyHumanMemoryClient.ingest_memories now items resp).2 = 0 ∧
      ((TinyHumanMemoryClient.ingest_memories now items resp).1).isOkB = false) := by
  constructor
  · simp [TinyHumanMemoryClient.ingest_memory, TinyHumanMemoryClient.ingest_memories,
          normalize_items, normalize_item_typed, except_bind_err]
  · intro h
    rcases normalize_items_typed_mem now items it h with ⟨e, he⟩
    have hne : items.isEmpty = false := by
      cases items
      · cases h
      · rfl
    rw [TinyHumanMemoryClient.ingest_memories]
    simp [hne, he, Except.isOkB]

/-- Witness for C9 at a concrete typed record. -/
theorem C9_typed_item_never_ingests_witness :
    TinyHumanMemoryClient.ingest_memory 0 (.typed ⟨"k", "c", "default", []⟩)
        ⟨200, some (.pyDict [("data", .pyDict [])]), ""⟩ =
      (.error (.attributeError "created_at"), 0) ∧
    ((TinyHumanMemoryClient.ingest_memories 0 [.typed ⟨"k", "c", "default", []⟩]
        ⟨200, some (.pyDict [("data", .pyDict [])]), ""⟩).1).isOkB = false := by
  refine ⟨(C9_typed_item_never_ingests 0 ⟨"k", "c", "default", []⟩ [] _).1, ?_⟩
  exact ((C9_typed_item_never_ingests 0 ⟨"k", "c", "default", []⟩
    [.typed ⟨"k", "c", "default", []⟩] _).2 (List.mem_singleton.mpr rfl)).2

/-- Claim C10: for all argument combinations, the async facade's
`get_context` raises `AttributeError` without reaching the network,
because the wrapped sync `TinyHumanMemoryClient` defines no
`get_context` attribute. -/
theorem C10_get_context_attribute_error (key : Option String) (keys : Option (List String))
    (namespace_ : Option String) (max_items : Option Int) :
    AsyncTinyHumanMemoryClient.get_context key keys namespace_ max_items =
      .error (.attributeError "get_context") := rfl

theorem parse_read_item_encode (it : ReadMemoryItem) :
    parse_read_item (encodeReadItem it) = .ok it := rfl

theorem parse_read_items_encode (its : List ReadMemoryItem) :
    parse_read_items (its.map encodeReadItem) = .ok its := by
  induction its with
  | nil => rfl
  | cons x rest ih =>
      simp [parse_read_items, parse_read_item_encode, ih, except_bind_ok]

theorem recall_memory_readEnvelope (namespace_ prompt : String) (num_chunks : Int)
    (key : Option String) (keys : Option (List String)) (its : List ReadMemoryItem)
    (respond : List (String × String) → HttpResponse)
    (h1 : 1 ≤ num_chunks)
    (hresp : ∀ ps, respond ps = readEnvelope its) :
    TinyHumanMemoryClient.recall_memory namespace_ prompt num_chunks key keys respond =
      (.ok ⟨String.intercalate "\n\n" ((its.take num_chunks.toNat).map context_block),
            its.take num_chunks.toNat, (its.take num_chunks.toNat).length⟩, 1) := by
  have hlt : ¬ num_chunks < 1 := by omega
  rw [TinyHumanMemoryClient.recall_memory.eq_def]
  simp only [if_neg hlt, hresp]
  have hparse : _parse_response (readEnvelope its) =
      .ok (.pyDict [("items", .pyList (its.map encodeReadItem)),
                    ("count", .pyInt (its.length : Int))]) := rfl
  rw [hparse]
  simp [pySubscript, parse_read_items_encode]

/-- Claim C5: the context string is built by emitting, for each returned
item in server order, a `[namespace:key]` header line, a newline and the
content, with consecutive blocks joined by one blank line. -/
theorem C5_context_formatting (namespace_ prompt : String) (num_chunks : Int)
    (key : Option String) (keys : Option (List String)) (its : List ReadMemoryItem)
    (respond : List (String × String) → HttpResponse)
    (h1 : 1 ≤ num_chunks) (hn : (its.length : Int) ≤ num_chunks)
    (hresp : ∀ ps, respond ps = readEnvelope its) :
    (TinyHumanMemoryClient.recall_memory namespace_ prompt num_chunks key keys respond).1 =
      .ok ⟨String.intercalate "\n\n"
            (its.map (fun it =>
              "[" ++ it.namespace_.format ++ ":" ++ it.key.format ++ "]\n" ++ it.content.format)),
           its, its.length⟩ := by
  have htake : its.take num_chunks.toNat = its := by
    apply List.take_of_length_le
    omega
  rw [recall_memory_readEnvelope namespace_ prompt num_chunks key keys its respond h1 hresp]
  rw [htake]
  rfl

/-- Witness for C5: items `(p, k1, A)` and `(p, k2, B)` produce exactly
the context string `"[p:k1]\nA\n\n[p:k2]\nB"`. -/
theorem C5_context_formatting_witness :
    (TinyHumanMemoryClient.recall_memory "p" "q" 10 none none (fun _ =>
      readEnvelope
        [⟨.pyStr "k1", .pyStr "A", .pyStr "p", .pyDict [], .pyStr "", .pyStr ""⟩,
         ⟨.pyStr "k2", .pyStr "B", .pyStr "p", .pyDict [], .pyStr "", .pyStr ""⟩])).1 =
      .ok ⟨"[p:k1]\nA\n\n[p:k2]\nB",
           [⟨.pyStr "k1", .pyStr "A", .pyStr "p", .pyDict [], .pyStr "", .pyStr ""⟩,
            ⟨.pyStr "k2", .pyStr "B", .pyStr "p", .pyDict [], .pyStr "", .pyStr ""⟩], 2⟩ := by
  have h := C5_context_formatting "p" "q" 10 none none
    [⟨.pyStr "k1", .pyStr "A", .pyStr "p", .pyDict [], .pyStr "", .pyStr ""⟩,
     ⟨.pyStr "k2", .pyStr "B", .pyStr "p", .pyDict [], .pyStr "", .pyStr ""⟩]
    (fun _ => readEnvelope
      [⟨.pyStr "k1", .pyStr "A", .pyStr "p", .pyDict [], .pyStr "", .pyStr ""⟩,
       ⟨.pyStr "k2", .pyStr "B", .pyStr "p", .pyDict [], .pyStr "", .pyStr ""⟩])
    (by norm_num) (by norm_num) (fun _ => rfl)
  exact h

/-- Claim C6: with a result cap of `num_chunks`, the returned items are the
first `num_chunks` entries of the server's sequence (client-side
truncation), the count is the truncated length, and exactly one HTTP
request is made. -/
theorem C6_truncation (namespace_ prompt : String) (num_chunks : Int)
    (key : Option String) (keys : Option (List String)) (its : List ReadMemoryItem)
    (respond : List (String × String) → HttpResponse)
    (h1 : 1 ≤ num_chunks)
    (hresp : ∀ ps, respond ps = readEnvelope its) :
    TinyHumanMemoryClient.recall_memory namespace_ prompt num_chunks key keys respond =
      (.ok ⟨String.intercalate "\n\n" ((its.take num_chunks.toNat).map context_block),
            its.take num_chunks.toNat, (its.take num_chunks.toNat).length⟩, 1) :=
  recall_memory_readEnvelope namespace_ prompt num_chunks key keys its respond h1 hresp

/-- Witness for C6: a 3-item server response with cap 1 returns exactly the
first item with count 1, over a single request. -/
theorem C6_truncation_witness :
    TinyHumanMemoryClient.recall_memory "p" "q" 1 none none (fun _ =>
      readEnvelope
        [⟨.pyStr "k1", .pyStr "A", .pyStr "p", .pyDict [], .pyStr "", .pyStr ""⟩,
         ⟨.pyStr "k2", .pyStr "B", .pyStr "p", .pyDict [], .pyStr "", .pyStr ""⟩,
         ⟨.pyStr "k3", .pyStr "C", .pyStr "p", .pyDict [], .pyStr "", .pyStr ""⟩]) =
      (.ok ⟨"[p:k1]\nA",
            [⟨.pyStr "k1", .pyStr "A", .pyStr "p", .pyDict [], .pyStr "", .pyStr ""⟩], 1⟩, 1) := by
  have h := C6_truncation "p" "q" 1 none none
    [⟨.pyStr "k1", .pyStr "A", .pyStr "p", .pyDict [], .pyStr "", .pyStr ""⟩,
     ⟨.pyStr "k2", .pyStr "B", .pyStr "p", .pyDict [], .pyStr "", .pyStr ""⟩,
     ⟨.pyStr "k3", .pyStr "C", .pyStr "p", .pyDict [], .pyStr "", .pyStr ""⟩]
    (fun _ => readEnvelope
      [⟨.pyStr "k1", .pyStr "A", .pyStr "p", .pyDict [], .pyStr "", .pyStr ""⟩,
       ⟨.pyStr "k2", .pyStr "B", .pyStr "p", .pyDict [], .pyStr "", .pyStr ""⟩,
       ⟨.pyStr "k3", .pyStr "C", .pyStr "p", .pyDict [], .pyStr "", .pyStr ""⟩])
    (by norm_num) (fun _ => rfl)
  exact h

/-- Claim C7: `recall_with_llm` rejects an api_key that is empty after
trimming with `InvalidArgument`; with no `url` and a provider tag
outside the supported set it raises `InvalidArgument` whose message
enumerates exactly the three supported names; with a (non-empty) `url`
the custom OpenAI-compatible path is taken regardless of the provider
value. -/
theorem C7_llm_routing (provider api_key : String) (url : Option String) :
    (pyStrip api_key = "" →
      recall_with_llm_route provider api_key url =
        .error (.valueError "api_key is required for recall_with_llm")) ∧
    (pyStrip api_key ≠ "" → url = none →
      SUPPORTED_LLM_PROVIDERS.contains (pyLower (pyStrip provider)) = false →
      recall_with_llm_route provider api_key url =
        .error (.valueError
          ("provider must be one of (\x27openai\x27, \x27anthropic\x27, \x27google\x27), got \x27"
            ++ pyLower (pyStrip provider)
            ++ "\x27. For custom providers, pass the \x27url\x27 parameter."))) ∧
    (∀ u, pyStrip api_key ≠ "" → url = some u → u ≠ "" →
      recall_with_llm_route provider api_key url = .ok (.custom u)) ∧
    SUPPORTED_LLM_PROVIDERS = ["openai", "anthropic", "google"] := by
  have hak : ∀ h : pyStrip api_key ≠ "", api_key ≠ "" := by
    intro h hc
    exact h (by rw [hc]; rfl)
  refine ⟨?_, ?_, ?_, rfl⟩
  · intro h
    simp [recall_with_llm_route, h]
  · intro h hu hsup
    rw [hu]
    simp only [recall_with_llm_route, hak h, h, llm_builtin_branch, hsup]
    simp only [Bool.false_eq_true, if_false, if_neg, ite_false]
    rfl
  · intro u h hu hue
    rw [hu]
    simp [recall_with_llm_route, hak h, h, hue]

/-- Witness for C7: provider `"unknown"` with no url fails listing the
three names; a url forces the custom path even for that provider. -/
theorem C7_llm_routing_witness :
    recall_with_llm_route "unknown" "sk" none =
      .error (.valueError
        "provider must be one of (\x27openai\x27, \x27anthropic\x27, \x27google\x27), got \x27unknown\x27. For custom providers, pass the \x27url\x27 parameter.") ∧
    recall_with_llm_route "unknown" "sk" (some "https://llm.example/v1") =
      .ok (.custom "https://llm.example/v1") ∧
    recall_with_llm_route "openai" "   " none =
      .error (.valueError "api_key is required for recall_with_llm") := by
  refine ⟨?_, ?_, ?_⟩
  · exact (C7_llm_routing "unknown" "sk" none).2.1 (by decide) rfl (by rfl)
  · exact (C7_llm_routing "unknown" "sk" (some "https://llm.example/v1")).2.2.1
      "https://llm.example/v1" (by decide) rfl (by decide)
  · exact (C7_llm_routing "openai" "   " none).1 (by rfl)

/-- Claim C8 (code evaluated at the failing configuration): the TinyHuman
clients resolve the base URL as claimed (explicit argument, else the
environment override, else the default); but for the Alphahuman client
the claim fails twice over: loading `alphahuman_memory.async_client`
raises `ImportError` because `BASE_URL_ENV` is not defined in
`alphahuman_memory.types`, and even granting that name a value, the
`AlphahumanConfig` dataclass defaults `base_url` to the hardcoded URL,
so with no explicit argument the environment override is never
consulted. -/
theorem C8_base_url_resolution (s e t : String) (env : String → Option String)
    (envv : Option String) :
    (s ≠ "" → TinyHumanMemoryClient.resolve_base_url (some s) env = pyRstripSlash s) ∧
    ((env BASE_URL_ENV = none ∨ env BASE_URL_ENV = some "") →
      TinyHumanMemoryClient.resolve_base_url none env = DEFAULT_BASE_URL) ∧
    (env BASE_URL_ENV = some e → e ≠ "" →
      TinyHumanMemoryClient.resolve_base_url none env = pyRstripSlash e) ∧
    alphahuman_import_failure = some "BASE_URL_ENV" ∧
    AsyncAlphahumanMemoryClient.resolve_base_url { token := t } envv =
      Alphahuman.DEFAULT_BASE_URL := by
  refine ⟨?_, ?_, ?_, rfl, rfl⟩
  · intro h
    simp [TinyHumanMemoryClient.resolve_base_url, pyOrStr, h]
  · intro h
    rcases h with h | h <;>
      simp [TinyHumanMemoryClient.resolve_base_url, pyOrStr, h] <;> rfl
  · intro h he
    simp [TinyHumanMemoryClient.resolve_base_url, pyOrStr, h, he]

/-- Witness for C8: with no constructor argument and the environment
override set, the TinyHuman client uses the override; with the
defaulted Alphahuman config and the same override set, the Alphahuman
client still uses the hardcoded URL. -/
theorem C8_base_url_resolution_witness :
    TinyHumanMemoryClient.resolve_base_url none
        (fun n => if n = "TINYHUMANS_BASE_URL" then some "https://env.example/" else none) =
      "https://env.example" ∧
    AsyncAlphahumanMemoryClient.resolve_base_url { token := "t" } (some "https://env.example") =
      "https://api.alphahuman.xyz" := by
  constructor
  · exact (C8_base_url_resolution "" "https://env.example/" "t"
      (fun n => if n = "TINYHUMANS_BASE_URL" then some "https://env.example/" else none)
      none).2.2.1 rfl (by decide)
  · exact (C8_base_url_resolution "" "https://env.example/" "t"
      (fun _ => none) (some "https://env.example")).2.2.2.2
